import Mathlib

/-!
# Verification of the DeviceAccessHub device store and route handlers

Shallow embedding of the relevant parts of the repository:

* `src/server/storage.ts` — `MemStorage` (an in-memory store backed by two
  JavaScript `Map`s and two auto-increment counters) with its CRUD and
  search operations on `Device` records.
* `shared/schema.ts` — the `Device` shape and the zod validation schemas
  `deviceValidationSchema` and `deviceSearchSchema`.
* `src/server/routes.ts` — `registerRoutes`: the POST `/api/devices` and
  PUT `/api/devices/:id` handlers and the table of registered routes.

JavaScript `Map<number, V>` is modelled as an insertion-ordered association
list `List (Int × V)`: `get` finds the first (unique) entry, `set` replaces
an existing entry in place or appends, `delete` removes the entry,
`values()` is the list of second components in insertion order.
-/

set_option autoImplicit false

namespace DeviceAccessHub

/-- A stored device record (`Device` in `shared/schema.ts`):
`id` plus the six string fields. -/
structure Device where
  id : Int
  deviceType : String
  deviceId : String
  currentOTA : String
  ipAddress : String
  sshUser : String
  password : String
  deriving Repr, DecidableEq

/-- A device payload without `id` (`InsertDevice` in `shared/schema.ts`,
also the shape checked by `deviceValidationSchema`). -/
structure InsertDevice where
  deviceType : String
  deviceId : String
  currentOTA : String
  ipAddress : String
  sshUser : String
  password : String
  deriving Repr, DecidableEq

/-- A partial update payload (`Partial<InsertDevice>` in TypeScript):
every field optional, `none` meaning the key is absent from the object. -/
structure PartialInsertDevice where
  deviceType : Option String := none
  deviceId : Option String := none
  currentOTA : Option String := none
  ipAddress : Option String := none
  sshUser : Option String := none
  password : Option String := none
  deriving Repr, DecidableEq

/-- Search criteria (`DeviceSearch` from `deviceSearchSchema`): three
optional string fields. -/
structure DeviceSearch where
  deviceType : Option String := none
  deviceId : Option String := none
  currentOTA : Option String := none
  deriving Repr, DecidableEq

/-- A user record (`User` in `shared/schema.ts`). -/
structure User where
  id : Int
  username : String
  password : String
  deriving Repr, DecidableEq

/-- `InsertUser`: a user payload without `id`. -/
structure InsertUser where
  username : String
  password : String
  deriving Repr, DecidableEq

/-! ## JavaScript `Map` model -/

/-- `Map.get k`: the value of the first entry with key `k`. -/
def mapGet {α : Type} (l : List (Int × α)) (k : Int) : Option α :=
  (l.find? (fun p => p.1 == k)).map (·.2)

/-- `Map.set k v`: replace the (unique) entry with key `k` in place,
or append a new entry when the key is absent. -/
def mapSet {α : Type} : List (Int × α) → Int → α → List (Int × α)
  | [], k, v => [(k, v)]
  | (k', v') :: rest, k, v =>
    if k' = k then (k, v) :: rest else (k', v') :: mapSet rest k v

/-- `Map.delete k` (the removal part): drop the entry with key `k`. -/
def mapDelete {α : Type} : List (Int × α) → Int → List (Int × α)
  | [], _ => []
  | (k', v') :: rest, k =>
    if k' = k then mapDelete rest k else (k', v') :: mapDelete rest k

/-- `Map.has k`. -/
def mapHas {α : Type} (l : List (Int × α)) (k : Int) : Bool :=
  l.any (fun p => p.1 == k)

/-! ## `MemStorage` state -/

/-- The private state of a `MemStorage` instance: the two maps and the two
auto-increment counters (`this.userId`, `this.deviceId`). -/
structure MemStorage where
  users : List (Int × User)
  devices : List (Int × Device)
  userId : Int
  deviceId : Int
  deriving Repr, DecidableEq

/-- The state every `MemStorage` starts from before seeding
(constructor lines: empty maps, both counters `1`). -/
def emptyStorage : MemStorage :=
  { users := [], devices := [], userId := 1, deviceId := 1 }

/-! ## `MemStorage` methods

Each mutating method returns its JavaScript return value paired with the
post-state. -/

/-- `createUser(insertUser)`: take the next user id, store, return the user. -/
def createUser (st : MemStorage) (u : InsertUser) : User × MemStorage :=
  let id := st.userId
  let user : User := { id := id, username := u.username, password := u.password }
  (user, { st with users := mapSet st.users id user, userId := st.userId + 1 })

/-- `getUserByUsername(username)`: first stored user with that username. -/
def getUserByUsername (st : MemStorage) (username : String) : Option User :=
  (st.users.map Prod.snd).find? (fun u => u.username == username)

/-- `getDevices()`: `Array.from(this.devices.values())`. -/
def getDevices (st : MemStorage) : List Device :=
  st.devices.map Prod.snd

/-- `getDevice(id)`: `this.devices.get(id)`. -/
def getDevice (st : MemStorage) (id : Int) : Option Device :=
  mapGet st.devices id

/-- `createDevice(insertDevice)`: take the next device id (`this.deviceId++`),
build the record by spreading the payload and adding `id`, store it,
return it. -/
def createDevice (st : MemStorage) (d : InsertDevice) : Device × MemStorage :=
  let id := st.deviceId
  let device : Device :=
    { id := id, deviceType := d.deviceType, deviceId := d.deviceId,
      currentOTA := d.currentOTA, ipAddress := d.ipAddress,
      sshUser := d.sshUser, password := d.password }
  (device, { st with devices := mapSet st.devices id device, deviceId := st.deviceId + 1 })

/-- The object built by `updateDevice`'s spread
`{...device, ...updates, deviceType: device.deviceType, deviceId: device.deviceId}`:
provided update fields replace the old ones, then `deviceType` and
`deviceId` are written back to the existing values. -/
def spreadUpdate (device : Device) (updates : PartialInsertDevice) : Device :=
  { id := device.id,
    deviceType := device.deviceType,
    deviceId := device.deviceId,
    currentOTA := updates.currentOTA.getD device.currentOTA,
    ipAddress := updates.ipAddress.getD device.ipAddress,
    sshUser := updates.sshUser.getD device.sshUser,
    password := updates.password.getD device.password }

/-- `updateDevice(id, updates)`: `undefined` when the id is unknown,
otherwise store and return the spread-updated record. -/
def updateDevice (st : MemStorage) (id : Int) (updates : PartialInsertDevice) :
    Option Device × MemStorage :=
  match mapGet st.devices id with
  | none => (none, st)
  | some device =>
      let updatedDevice := spreadUpdate device updates
      (some updatedDevice, { st with devices := mapSet st.devices id updatedDevice })

/-- `deleteDevice(id)`: `false` when `has` fails, otherwise `delete`
(which returns `true` for a present key) and the entry is removed. -/
def deleteDevice (st : MemStorage) (id : Int) : Bool × MemStorage :=
  if mapHas st.devices id then
    (true, { st with devices := mapDelete st.devices id })
  else
    (false, st)

/-- JavaScript truthiness of an optional string criterion:
`!criteria.field` is `true` exactly when the field is `undefined` or `""`. -/
def critFalsy : Option String → Bool
  | none => true
  | some s => s.isEmpty

/-- `hay.includes(needle)`: substring containment. -/
def strContainsSubstr (hay needle : String) : Bool :=
  decide (needle.toList <:+: hay.toList)

/-- The filter body of `searchDevices`: each provided, non-empty criterion
must match (`deviceType`/`currentOTA` exactly, `deviceId` by substring);
an absent or empty criterion matches every device. -/
def matchesCriteria (criteria : DeviceSearch) (device : Device) : Bool :=
  let typeMatch := critFalsy criteria.deviceType ||
    device.deviceType == criteria.deviceType.getD ""
  let idMatch := critFalsy criteria.deviceId ||
    strContainsSubstr device.deviceId (criteria.deviceId.getD "")
  let otaMatch := critFalsy criteria.currentOTA ||
    device.currentOTA == criteria.currentOTA.getD ""
  typeMatch && idMatch && otaMatch

/-- `searchDevices(criteria)`: filter `values()` by `matchesCriteria`. -/
def searchDevices (st : MemStorage) (criteria : DeviceSearch) : List Device :=
  (st.devices.map Prod.snd).filter (matchesCriteria criteria)

/-! ## Constructor seed data -/

/-- The `initialDevices` array of the `MemStorage` constructor. -/
def initialDevices : List InsertDevice :=
  [ { deviceType := "Krait2", deviceId := "6603041292", currentOTA := "4.6.10.rc.2_dev6",
      ipAddress := "172.16.16.141", sshUser := "root", password := "EKM2020123Krait" },
    { deviceType := "Krait2", deviceId := "6603070196", currentOTA := "4.6.10.rc.2_dev6",
      ipAddress := "172.16.18.250", sshUser := "root", password := "EKM2020123Krait" },
    { deviceType := "Krait1", deviceId := "264067598", currentOTA := "2.6.10.rc.1_dev7",
      ipAddress := "172.16.17.149", sshUser := "root", password := "EKM2020123Krait" },
    { deviceType := "Krait1", deviceId := "264062606", currentOTA := "2.6.10.rc.1_dev7",
      ipAddress := "172.16.23.249", sshUser := "root", password := "root" },
    { deviceType := "Bagheera2", deviceId := "3633042296", currentOTA := "3.6.10.rc.1_dev7",
      ipAddress := "172.16.17.235", sshUser := "ubuntu", password := "ubuntu1" },
    { deviceType := "Bagheera2", deviceId := "3633039070", currentOTA := "3.6.10.rc.1_dev7",
      ipAddress := "172.16.18.72", sshUser := "ubuntu", password := "ubuntu1" },
    { deviceType := "Bagheera3", deviceId := "103302400034", currentOTA := "5.6.10.rc.2_dev6",
      ipAddress := "172.16.19.252", sshUser := "ubuntu", password := "ubuntu1" },
    { deviceType := "Bagheera3", deviceId := "103212400422", currentOTA := "5.6.10.rc.2_dev6",
      ipAddress := "172.16.20.9", sshUser := "ubuntu", password := "ubuntu1" },
    { deviceType := "Bagheera3", deviceId := "103022400202", currentOTA := "5.6.10.rc.2_dev6",
      ipAddress := "172.16.18.37", sshUser := "ubuntu", password := "ubuntu1" },
    { deviceType := "Octo", deviceId := "125222400003", currentOTA := "7.6.10.rc.1",
      ipAddress := "172.16.17.227", sshUser := "ubuntu", password := "EKM2800123Netra" },
    { deviceType := "Octo", deviceId := "125122400018", currentOTA := "7.6.10.rc.1",
      ipAddress := "172.16.17.186", sshUser := "ubuntu", password := "EKM2800123Netra" },
    { deviceType := "Octo", deviceId := "125122400021", currentOTA := "7.6.10.rc.1",
      ipAddress := "172.16.16.61", sshUser := "ubuntu", password := "EKM2800123Netra" } ]

/-- The `MemStorage` constructor: start from counters `1` and empty maps,
create the default admin user, then create every seed device in order. -/
def mkMemStorage : MemStorage :=
  let st1 := (createUser emptyStorage { username := "ubuntu", password := "EKM2800123Netra" }).2
  initialDevices.foldl (fun st d => (createDevice st d).2) st1

/-! ## Validation layer (`deviceValidationSchema` from `shared/schema.ts`)

`deviceValidationSchema` is a zod object schema; each field is
`z.string()` with a `min(1)` check and, for `deviceId` and `ipAddress`,
an anchored regex check. zod runs every check and collects all failed
checks' messages in field order; `fromZodError` then renders them as one
message. The joined message is modelled as the `"; "`-intercalation of
the individual issue messages (dropping `fromZodError`'s presentation-only
decoration). -/

/-- The regex `^[0-9]+$` applied to `s`: non-empty and all digits. -/
def isDigitsOnly (s : String) : Bool :=
  decide (1 ≤ s.toList.length) && s.toList.all Char.isDigit

/-- One group of the IP regex: `[0-9]{1,3}`. -/
def isIpGroup (g : List Char) : Bool :=
  decide (1 ≤ g.length) && decide (g.length ≤ 3) && g.all Char.isDigit

/-- Split a character list at every `'.'` (dot-separated groups, keeping
empty groups, as the anchored regex sees them). -/
def splitOnDot : List Char → List (List Char)
  | [] => [[]]
  | c :: rest =>
    if c = '.' then [] :: splitOnDot rest
    else
      match splitOnDot rest with
      | [] => [[c]]
      | g :: gs => (c :: g) :: gs

/-- Rejoin dot-separated groups (left inverse of `splitOnDot`, used to
relate the matcher to the decomposition the regex describes). -/
def joinDots : List (List Char) → List Char
  | [] => []
  | [g] => g
  | g :: gs => g ++ '.' :: joinDots gs

/-- The regex `^([0-9]{1,3}\.){3}[0-9]{1,3}$` applied to `s`: exactly four
dot-separated groups, each of 1–3 digits. -/
def matchesIpPattern (s : String) : Bool :=
  decide ((splitOnDot s.toList).length = 4) && (splitOnDot s.toList).all isIpGroup

/-- The issue messages collected by `deviceValidationSchema.safeParse`,
in schema order (for each field: the `min(1)` message, then the regex
message where present). -/
def deviceValidationIssues (p : InsertDevice) : List String :=
  (if 1 ≤ p.deviceType.toList.length then [] else ["Device type is required"]) ++
  (if 1 ≤ p.deviceId.toList.length then [] else ["Device ID is required"]) ++
  (if isDigitsOnly p.deviceId then [] else ["Device ID must contain only numbers"]) ++
  (if 1 ≤ p.currentOTA.toList.length then [] else ["OTA version is required"]) ++
  (if 1 ≤ p.ipAddress.toList.length then [] else ["IP address is required"]) ++
  (if matchesIpPattern p.ipAddress then [] else ["Valid IP address is required (e.g. 192.168.1.1)"]) ++
  (if 1 ≤ p.sshUser.toList.length then [] else ["SSH username is required"]) ++
  (if 1 ≤ p.password.toList.length then [] else ["Password is required"])

/-- `deviceValidationSchema.safeParse(body)` followed by `fromZodError` on
failure: success returns the payload, failure returns the joined message. -/
def deviceValidationSafeParse (p : InsertDevice) : Except String InsertDevice :=
  match deviceValidationIssues p with
  | [] => .ok p
  | issues => .error (String.intercalate "; " issues)

/-! ## Route handlers (`src/server/routes.ts`) -/

/-- HTTP methods used by the route table. -/
inductive HttpMethod where
  | GET
  | POST
  | PUT
  | DELETE
  deriving DecidableEq, Repr

/-- The routes `registerRoutes` registers on the Express app, in
registration order. There is no DELETE route: Express answers any
`DELETE /api/devices/:id` request with its default 404 and the store is
never touched. -/
def registeredRoutes : List (HttpMethod × String) :=
  [ (HttpMethod.POST, "/api/auth/login"),
    (HttpMethod.POST, "/api/auth/logout"),
    (HttpMethod.GET, "/api/auth/user"),
    (HttpMethod.GET, "/api/devices"),
    (HttpMethod.POST, "/api/devices"),
    (HttpMethod.POST, "/api/devices/search"),
    (HttpMethod.PUT, "/api/devices/:id") ]

/-- The POST `/api/devices` handler, for an authenticated request, as
(status, response device, post-state): validate the body, search for an
existing device with the criteria `{deviceType, deviceId}` (no
`currentOTA`), answer 409 when any match exists, otherwise create and
answer 201 with the created device. -/
def postDevicesHandler (st : MemStorage) (body : InsertDevice) :
    Nat × Option Device × MemStorage :=
  match deviceValidationSafeParse body with
  | .error _ => (400, none, st)
  | .ok newDevice =>
    let existingDevices := searchDevices st
      { deviceType := some newDevice.deviceType,
        deviceId := some newDevice.deviceId,
        currentOTA := none }
    if 0 < existingDevices.length then
      (409, none, st)
    else
      let created := createDevice st newDevice
      (201, some created.1, created.2)

/-- A request body as received by the PUT handler (a loose JSON object of
string fields; the handler below never reads it). -/
abbrev RequestBody := List (String × String)

/-- The PUT `/api/devices/:id` handler, for an authenticated request, as
(status, post-state). `pathId` is the result of `parseInt(req.params.id)`
(`none` = `NaN`). After the 400 and 404 guards the handler evaluates
`updateDeviceSchema.safeParse(req.body)`, but `updateDeviceSchema` is
neither imported (routes.ts imports only `deviceValidationSchema`,
`deviceSearchSchema`, `insertDeviceSchema`) nor defined anywhere in the
repository, so that line throws a `ReferenceError`, the surrounding
`try/catch` catches it, and the response is 500 — the body is never read
and the store is never updated. -/
def putDeviceHandler (st : MemStorage) (pathId : Option Int) (_body : RequestBody) :
    Nat × MemStorage :=
  match pathId with
  | none => (400, st)
  | some deviceId =>
    match getDevice st deviceId with
    | none => (404, st)
    | some _ => (500, st)

/-! ## Operation traces over the store (for the id-assignment claims) -/

/-- One mutating store operation. -/
inductive StoreOp where
  | createOp (payload : InsertDevice)
  | updateOp (id : Int) (updates : PartialInsertDevice)
  | deleteOp (id : Int)

/-- Apply one operation, keeping only the post-state. -/
def applyOp (st : MemStorage) : StoreOp → MemStorage
  | .createOp p => (createDevice st p).2
  | .updateOp id u => (updateDevice st id u).2
  | .deleteOp id => (deleteDevice st id).2

/-- The ids handed out by `createDevice`, in order, along a trace of
operations run from `st`. -/
def createdIds (st : MemStorage) : List StoreOp → List Int
  | [] => []
  | op :: ops =>
    match op with
    | .createOp p => (createDevice st p).1.id :: createdIds (applyOp st op) ops
    | _ => createdIds (applyOp st op) ops

/-- The number of `createOp`s in a trace. -/
def countCreates (ops : List StoreOp) : Nat :=
  ops.countP fun op =>
    match op with
    | .createOp _ => true
    | _ => false

/-! ## Concrete sample inputs used by witnesses and counterexamples -/

/-- The first seeded device (id 1) of `mkMemStorage`. -/
def seededDevice1 : Device :=
  { id := 1, deviceType := "Krait2", deviceId := "6603041292",
    currentOTA := "4.6.10.rc.2_dev6", ipAddress := "172.16.16.141",
    sshUser := "root", password := "EKM2020123Krait" }

/-- An update payload that tries to change the immutable fields too. -/
def sampleUpdate : PartialInsertDevice :=
  { deviceType := some "Hacked", deviceId := some "42",
    currentOTA := some "9.9.9.rc.1", ipAddress := none,
    sshUser := none, password := some "letmein" }

/-- A valid creation payload whose `deviceId` `"660"` is a strict
substring of the seeded device id `"6603041292"` but identical to no
seeded `(deviceType, deviceId)` pair. -/
def conflictSample : InsertDevice :=
  { deviceType := "Krait2", deviceId := "660", currentOTA := "4.6.10.rc.2_dev6",
    ipAddress := "172.16.0.10", sshUser := "root", password := "pw1" }

/-- A valid creation payload matching no seeded device. -/
def freshSample : InsertDevice :=
  { deviceType := "Krait9", deviceId := "555000111", currentOTA := "9.0.0.rc.1",
    ipAddress := "10.0.0.7", sshUser := "ops", password := "pw2" }

/-- A payload violating several validation rules at once. -/
def badSample : InsertDevice :=
  { deviceType := "", deviceId := "abc", currentOTA := "1.0.0.rc.1",
    ipAddress := "300.1", sshUser := "root", password := "" }

/-! ## Association-list lemmas for the `Map` model -/

theorem mapGet_cons {α : Type} (k' : Int) (v' : α) (rest : List (Int × α)) (k : Int) :
    mapGet ((k', v') :: rest) k = if k' = k then some v' else mapGet rest k := by
  by_cases h : k' = k
  · subst h
    simp [mapGet, List.find?_cons_of_pos]
  · rw [mapGet, List.find?_cons_of_neg]
    · simp [h, mapGet]
    · simp [h]

theorem mapGet_mapSet_self {α : Type} (l : List (Int × α)) (k : Int) (v : α) :
    mapGet (mapSet l k v) k = some v := by
  induction l with
  | nil => simp [mapSet, mapGet_cons, mapGet]
  | cons p rest ih =>
    obtain ⟨k', v'⟩ := p
    by_cases h : k' = k
    · simp [mapSet, h, mapGet_cons]
    · simp [mapSet, h, mapGet_cons, ih]

theorem mapGet_mapDelete_self {α : Type} (l : List (Int × α)) (k : Int) :
    mapGet (mapDelete l k) k = none := by
  induction l with
  | nil => simp [mapDelete, mapGet]
  | cons p rest ih =>
    obtain ⟨k', v'⟩ := p
    by_cases h : k' = k
    · simp [mapDelete, h, ih]
    · simp [mapDelete, h, mapGet_cons, ih]

theorem mapHas_eq_isSome {α : Type} (l : List (Int × α)) (k : Int) :
    mapHas l k = (mapGet l k).isSome := by
  induction l with
  | nil => simp [mapHas, mapGet]
  | cons p rest ih =>
    obtain ⟨k', v'⟩ := p
    by_cases h : k' = k
    · simp [mapHas, mapGet_cons, h]
    · simp [mapHas] at ih
      simp [mapHas, mapGet_cons, h, ih]

/-! ## Claim theorems -/

/-- **C6.** For every id, `deleteDevice(id)` returns `true` exactly when a
device with that id existed, removes it from the store, and a second call
on the same id returns `false`; the operation is total (never an error). -/
theorem deleteDevice_idempotent (st : MemStorage) (id : Int) :
    (deleteDevice st id).1 = (getDevice st id).isSome ∧
    getDevice (deleteDevice st id).2 id = none ∧
    (deleteDevice (deleteDevice st id).2 id).1 = false := by
  cases h : mapHas st.devices id with
  | true =>
    have hget : (getDevice st id).isSome = true := by
      rw [getDevice, ← mapHas_eq_isSome, h]
    have hnone : mapGet (mapDelete st.devices id) id = none :=
      mapGet_mapDelete_self st.devices id
    have h2 : mapHas (mapDelete st.devices id) id = false := by
      rw [mapHas_eq_isSome, hnone]
      rfl
    refine ⟨?_, ?_, ?_⟩
    · simp [deleteDevice, h, hget]
    · simp [deleteDevice, h, getDevice, hnone]
    · simp [deleteDevice, h, h2]
  | false =>
    have hget : getDevice st id = none := by
      have hs : (getDevice st id).isSome = false := by
        rw [getDevice, ← mapHas_eq_isSome, h]
      cases hg : getDevice st id with
      | none => rfl
      | some d => rw [hg] at hs; simp at hs
    refine ⟨?_, ?_, ?_⟩
    · simp [deleteDevice, h, hget]
    · simp [deleteDevice, h, hget]
    · simp [deleteDevice, h]

/-- **C8.** For every store state and device payload, `createDevice`
followed by `getDevice` on the returned record's id yields exactly the
returned record, which is the payload's six fields plus the assigned id. -/
theorem createDevice_then_getDevice (st : MemStorage) (p : InsertDevice) :
    getDevice (createDevice st p).2 (createDevice st p).1.id = some (createDevice st p).1 ∧
    (createDevice st p).1 =
      { id := st.deviceId, deviceType := p.deviceType, deviceId := p.deviceId,
        currentOTA := p.currentOTA, ipAddress := p.ipAddress,
        sshUser := p.sshUser, password := p.password } := by
  constructor
  · exact mapGet_mapSet_self st.devices st.deviceId _
  · rfl

/-- **C4.** For every stored device `d` at `id` and every partial payload,
`updateDevice` stores and returns a record that keeps `deviceType`,
`deviceId` (and `id`) equal to their pre-update values regardless of what
the payload holds for them, applies every provided field, and leaves every
unprovided field unchanged. -/
theorem updateDevice_preserves_immutable_fields (st : MemStorage) (id : Int)
    (updates : PartialInsertDevice) (d : Device) (h : getDevice st id = some d) :
    (updateDevice st id updates).1 = some (spreadUpdate d updates) ∧
    getDevice (updateDevice st id updates).2 id = some (spreadUpdate d updates) ∧
    (spreadUpdate d updates).deviceType = d.deviceType ∧
    (spreadUpdate d updates).deviceId = d.deviceId ∧
    (spreadUpdate d updates).id = d.id ∧
    (spreadUpdate d updates).currentOTA = updates.currentOTA.getD d.currentOTA ∧
    (spreadUpdate d updates).ipAddress = updates.ipAddress.getD d.ipAddress ∧
    (spreadUpdate d updates).sshUser = updates.sshUser.getD d.sshUser ∧
    (spreadUpdate d updates).password = updates.password.getD d.password := by
  rw [getDevice] at h
  refine ⟨?_, ?_, rfl, rfl, rfl, rfl, rfl, rfl, rfl⟩
  · simp [updateDevice, h]
  · simp [updateDevice, h, getDevice, mapGet_mapSet_self]

/-- Witness for C4 at the seeded store: device 1 exists, and an update that
tries to overwrite `deviceType` and `deviceId` leaves them unchanged. -/
theorem updateDevice_preserves_immutable_fields_witness :
    getDevice mkMemStorage 1 = some seededDevice1 ∧
    ((updateDevice mkMemStorage 1 sampleUpdate).1 = some (spreadUpdate seededDevice1 sampleUpdate) ∧
     getDevice (updateDevice mkMemStorage 1 sampleUpdate).2 1 = some (spreadUpdate seededDevice1 sampleUpdate) ∧
     (spreadUpdate seededDevice1 sampleUpdate).deviceType = seededDevice1.deviceType ∧
     (spreadUpdate seededDevice1 sampleUpdate).deviceId = seededDevice1.deviceId ∧
     (spreadUpdate seededDevice1 sampleUpdate).id = seededDevice1.id ∧
     (spreadUpdate seededDevice1 sampleUpdate).currentOTA = sampleUpdate.currentOTA.getD seededDevice1.currentOTA ∧
     (spreadUpdate seededDevice1 sampleUpdate).ipAddress = sampleUpdate.ipAddress.getD seededDevice1.ipAddress ∧
     (spreadUpdate seededDevice1 sampleUpdate).sshUser = sampleUpdate.sshUser.getD seededDevice1.sshUser ∧
     (spreadUpdate seededDevice1 sampleUpdate).password = sampleUpdate.password.getD seededDevice1.password) :=
  ⟨by decide,
   updateDevice_preserves_immutable_fields mkMemStorage 1 sampleUpdate seededDevice1 (by decide)⟩

/-! ### Id-assignment lemmas (C7) -/

theorem applyOp_deviceId_nonCreate (st : MemStorage) (op : StoreOp)
    (h : countCreates [op] = 0) : (applyOp st op).deviceId = st.deviceId := by
  cases op with
  | createOp p => simp [countCreates] at h
  | updateOp id u =>
    simp only [applyOp, updateDevice]
    cases mapGet st.devices id <;> rfl
  | deleteOp id =>
    simp only [applyOp, deleteDevice]
    by_cases hh : mapHas st.devices id <;> simp [hh]

theorem createdIds_eq (ops : List StoreOp) :
    ∀ st : MemStorage, createdIds st ops =
      (List.range (countCreates ops)).map (fun i : Nat => st.deviceId + (i : Int)) := by
  induction ops with
  | nil => intro st; simp [createdIds, countCreates]
  | cons op rest ih =>
    intro st
    cases op with
    | createOp p =>
      have hcount : countCreates (StoreOp.createOp p :: rest) = countCreates rest + 1 := by
        simp [countCreates]
      have hrec := ih ((createDevice st p).2)
      have hdev : ((createDevice st p).2).deviceId = st.deviceId + 1 := rfl
      rw [hcount, List.range_succ_eq_map]
      simp only [createdIds, applyOp, List.map_cons, List.map_map]
      rw [hrec, hdev]
      congr 1
      · simp [createDevice]
      · apply List.map_congr_left
        intro i _
        simp [Function.comp]
        ring
    | updateOp id u =>
      have hdev : (applyOp st (StoreOp.updateOp id u)).deviceId = st.deviceId :=
        applyOp_deviceId_nonCreate st _ (by simp [countCreates])
      have hcount : countCreates (StoreOp.updateOp id u :: rest) = countCreates rest := by
        simp [countCreates]
      have : createdIds st (StoreOp.updateOp id u :: rest) =
          createdIds (applyOp st (StoreOp.updateOp id u)) rest := rfl
      rw [this, ih, hdev, hcount]
    | deleteOp id =>
      have hdev : (applyOp st (StoreOp.deleteOp id)).deviceId = st.deviceId :=
        applyOp_deviceId_nonCreate st _ (by simp [countCreates])
      have hcount : countCreates (StoreOp.deleteOp id :: rest) = countCreates rest := by
        simp [countCreates]
      have : createdIds st (StoreOp.deleteOp id :: rest) =
          createdIds (applyOp st (StoreOp.deleteOp id)) rest := rfl
      rw [this, ih, hdev, hcount]

/-- **C7.** Along any trace of store operations run from the freshly
constructed state (device counter 1), the ids handed out by `createDevice`
are exactly `1, 2, 3, …` in order — strictly increasing, starting at the
counter's initial value 1, and never repeated, no matter how many deletes
happen in between. -/
theorem createDevice_ids_monotone (ops : List StoreOp) :
    createdIds emptyStorage ops =
      (List.range (countCreates ops)).map (fun i : Nat => 1 + (i : Int)) ∧
    (createdIds emptyStorage ops).Pairwise (· < ·) ∧
    (createdIds emptyStorage ops).Nodup := by
  have h := createdIds_eq ops emptyStorage
  have h1 : emptyStorage.deviceId = 1 := rfl
  rw [h1] at h
  have hpw : (createdIds emptyStorage ops).Pairwise (· < ·) := by
    rw [h, List.pairwise_map]
    apply (List.pairwise_lt_range (countCreates ops)).imp
    intro a b hab
    have : (a : Int) < (b : Int) := by exact_mod_cast hab
    omega
  exact ⟨h, hpw, hpw.imp (fun hab => ne_of_lt hab)⟩

/-! ### Search lemmas (C5) -/

theorem exactCrit_eq_true_iff (o : Option String) (v : String) :
    (critFalsy o || v == o.getD "") = true ↔
      (o = none ∨ o = some "" ∨ o = some v) := by
  cases o with
  | none => simp [critFalsy]
  | some s =>
    simp only [critFalsy, Option.getD_some, Bool.or_eq_true, String.isEmpty_iff,
      beq_iff_eq, Option.some.injEq, reduceCtorEq, false_or]
    constructor
    · rintro (h | h)
      · exact Or.inl h
      · exact Or.inr h.symm
    · rintro (h | h)
      · exact Or.inl h
      · exact Or.inr h.symm

theorem substrCrit_eq_true_iff (o : Option String) (v : String) :
    (critFalsy o || strContainsSubstr v (o.getD "")) = true ↔
      (o = none ∨ o = some "" ∨ ∃ s, o = some s ∧ s.toList <:+: v.toList) := by
  cases o with
  | none => simp [critFalsy]
  | some s =>
    simp [critFalsy, strContainsSubstr, String.isEmpty_iff]

theorem matchesCriteria_eq_true_iff (c : DeviceSearch) (d : Device) :
    matchesCriteria c d = true ↔
      ((c.deviceType = none ∨ c.deviceType = some "" ∨ c.deviceType = some d.deviceType) ∧
       (c.deviceId = none ∨ c.deviceId = some "" ∨
         ∃ s, c.deviceId = some s ∧ s.toList <:+: d.deviceId.toList) ∧
       (c.currentOTA = none ∨ c.currentOTA = some "" ∨ c.currentOTA = some d.currentOTA)) := by
  rw [matchesCriteria]
  simp only [Bool.and_eq_true]
  rw [exactCrit_eq_true_iff, substrCrit_eq_true_iff, exactCrit_eq_true_iff]
  tauto

/-- **C5.** `searchDevices` returns exactly the stored devices whose
`deviceType` equals the criterion (or the criterion is absent/empty),
whose `deviceId` contains the `deviceId` criterion as a substring (or it
is absent/empty), and whose `currentOTA` equals the criterion (or it is
absent/empty); with all criteria absent it returns the same list as
`getDevices`. -/
theorem searchDevices_characterization :
    (∀ (st : MemStorage) (c : DeviceSearch) (d : Device),
       d ∈ searchDevices st c ↔
         (d ∈ getDevices st ∧
          (c.deviceType = none ∨ c.deviceType = some "" ∨ c.deviceType = some d.deviceType) ∧
          (c.deviceId = none ∨ c.deviceId = some "" ∨
            ∃ s, c.deviceId = some s ∧ s.toList <:+: d.deviceId.toList) ∧
          (c.currentOTA = none ∨ c.currentOTA = some "" ∨ c.currentOTA = some d.currentOTA))) ∧
    (∀ st : MemStorage,
       searchDevices st { deviceType := none, deviceId := none, currentOTA := none } =
         getDevices st) := by
  constructor
  · intro st c d
    rw [searchDevices, List.mem_filter, matchesCriteria_eq_true_iff, getDevices]
  · intro st
    simp [searchDevices, matchesCriteria, critFalsy, getDevices]

/-! ### Validation lemmas (C9) -/

theorem splitOnDot_ne_nil : ∀ l : List Char, splitOnDot l ≠ []
  | [] => by simp [splitOnDot]
  | c :: rest => by
    rw [splitOnDot]
    by_cases h : c = '.'
    · simp [h]
    · simp only [h, if_false]
      cases hsp : splitOnDot rest <;> simp

theorem joinDots_splitOnDot : ∀ l : List Char, joinDots (splitOnDot l) = l
  | [] => rfl
  | c :: rest => by
    have ih := joinDots_splitOnDot rest
    rw [splitOnDot]
    by_cases h : c = '.'
    · subst h
      simp only [if_pos rfl]
      cases hsp : splitOnDot rest with
      | nil => exact absurd hsp (splitOnDot_ne_nil rest)
      | cons g gs =>
        rw [hsp] at ih
        show joinDots ([] :: g :: gs) = '.' :: rest
        rw [show joinDots ([] :: g :: gs) = [] ++ '.' :: joinDots (g :: gs) from rfl]
        simp [ih]
    · simp only [h, if_false]
      cases hsp : splitOnDot rest with
      | nil => exact absurd hsp (splitOnDot_ne_nil rest)
      | cons g gs =>
        rw [hsp] at ih
        cases gs with
        | nil =>
          show c :: g = c :: rest
          exact congrArg (c :: ·) ih
        | cons g2 gs2 =>
          show (c :: g) ++ '.' :: joinDots (g2 :: gs2) = c :: rest
          rw [show joinDots (g :: g2 :: gs2) = g ++ '.' :: joinDots (g2 :: gs2) from rfl] at ih
          simp [ih]

theorem splitOnDot_no_dot : ∀ g : List Char, '.' ∉ g → splitOnDot g = [g]
  | [], _ => rfl
  | c :: g', h => by
    have hc : c ≠ '.' := by rintro rfl; exact h (List.mem_cons_self _ _)
    have ih := splitOnDot_no_dot g' (fun m => h (List.mem_cons_of_mem c m))
    rw [splitOnDot, if_neg hc, ih]

theorem splitOnDot_append_group : ∀ (g rest : List Char), '.' ∉ g →
    splitOnDot (g ++ '.' :: rest) = g :: splitOnDot rest
  | [], rest, _ => by simp [splitOnDot]
  | c :: g', rest, h => by
    have hc : c ≠ '.' := by rintro rfl; exact h (List.mem_cons_self _ _)
    have ih := splitOnDot_append_group g' rest (fun m => h (List.mem_cons_of_mem c m))
    rw [List.cons_append, splitOnDot, if_neg hc, ih]

theorem one_le_toList_length_iff (s : String) : 1 ≤ s.toList.length ↔ s ≠ "" := by
  rw [Nat.one_le_iff_ne_zero, ne_eq, List.length_eq_zero]
  constructor
  · intro h he
    exact h (by rw [he]; rfl)
  · intro h hl
    exact h (String.toList_inj.mp (by rw [hl]; rfl))

theorem isIpGroup_eq_true_iff (g : List Char) :
    isIpGroup g = true ↔ (g ≠ [] ∧ g.length ≤ 3 ∧ ∀ c ∈ g, c.isDigit = true) := by
  simp [isIpGroup, List.all_eq_true, Nat.one_le_iff_ne_zero, List.length_eq_zero, and_assoc]

theorem no_dot_of_digits (g : List Char) (h : ∀ c ∈ g, c.isDigit = true) : '.' ∉ g := by
  intro hm
  have hd := h '.' hm
  exact absurd hd (by decide)

theorem matchesIpPattern_eq_true_iff (s : String) :
    matchesIpPattern s = true ↔
      ∃ a b c d : List Char,
        s.toList = a ++ '.' :: (b ++ '.' :: (c ++ '.' :: d)) ∧
        (a ≠ [] ∧ a.length ≤ 3 ∧ ∀ ch ∈ a, ch.isDigit = true) ∧
        (b ≠ [] ∧ b.length ≤ 3 ∧ ∀ ch ∈ b, ch.isDigit = true) ∧
        (c ≠ [] ∧ c.length ≤ 3 ∧ ∀ ch ∈ c, ch.isDigit = true) ∧
        (d ≠ [] ∧ d.length ≤ 3 ∧ ∀ ch ∈ d, ch.isDigit = true) := by
  constructor
  · intro h
    rw [matchesIpPattern, Bool.and_eq_true, decide_eq_true_eq] at h
    obtain ⟨hlen, hall⟩ := h
    have hex : ∃ a b c d, splitOnDot s.toList = [a, b, c, d] := by
      rcases hsp : splitOnDot s.toList with _ | ⟨a, _ | ⟨b, _ | ⟨c, _ | ⟨d, _ | ⟨e, t⟩⟩⟩⟩⟩ <;>
        rw [hsp] at hlen
      · simp at hlen
      · simp at hlen
      · simp at hlen
      · simp at hlen
      · exact ⟨a, b, c, d, rfl⟩
      · simp at hlen
    obtain ⟨a, b, c, d, hsp⟩ := hex
    rw [hsp] at hall
    simp only [List.all_eq_true, List.mem_cons, List.not_mem_nil, or_false,
      forall_eq_or_imp, forall_eq] at hall
    obtain ⟨ha, hb, hc, hd⟩ := hall
    refine ⟨a, b, c, d, ?_, (isIpGroup_eq_true_iff a).mp ha, (isIpGroup_eq_true_iff b).mp hb,
      (isIpGroup_eq_true_iff c).mp hc, (isIpGroup_eq_true_iff d).mp hd⟩
    have hj := joinDots_splitOnDot s.toList
    rw [hsp] at hj
    rw [← hj]
    rfl
  · rintro ⟨a, b, c, d, hs, ha, hb, hc, hd⟩
    have hna : '.' ∉ a := no_dot_of_digits a ha.2.2
    have hnb : '.' ∉ b := no_dot_of_digits b hb.2.2
    have hnc : '.' ∉ c := no_dot_of_digits c hc.2.2
    have hnd : '.' ∉ d := no_dot_of_digits d hd.2.2
    have hsp : splitOnDot s.toList = [a, b, c, d] := by
      rw [hs, splitOnDot_append_group a _ hna, splitOnDot_append_group b _ hnb,
        splitOnDot_append_group c _ hnc, splitOnDot_no_dot d hnd]
    rw [matchesIpPattern, hsp]
    simp only [List.all_eq_true, List.mem_cons, List.not_mem_nil, or_false,
      forall_eq_or_imp, forall_eq, isIpGroup_eq_true_iff, List.length_cons,
      List.length_nil, Bool.and_eq_true, decide_eq_true_eq]
    exact ⟨by simp, ha, hb, hc, hd⟩

theorem ite_nil_eq_nil_iff (c : Prop) [Decidable c] (m : String) :
    ((if c then ([] : List String) else [m]) = []) ↔ c := by
  split <;> simp_all

theorem deviceValidationIssues_eq_nil_iff (p : InsertDevice) :
    deviceValidationIssues p = [] ↔
      (1 ≤ p.deviceType.toList.length ∧
       1 ≤ p.deviceId.toList.length ∧ isDigitsOnly p.deviceId = true ∧
       1 ≤ p.currentOTA.toList.length ∧
       1 ≤ p.ipAddress.toList.length ∧ matchesIpPattern p.ipAddress = true ∧
       1 ≤ p.sshUser.toList.length ∧ 1 ≤ p.password.toList.length) := by
  rw [deviceValidationIssues]
  simp only [List.append_eq_nil, ite_nil_eq_nil_iff, eq_self_iff_true]
  tauto

theorem isDigitsOnly_eq_true_iff (s : String) :
    isDigitsOnly s = true ↔ (s ≠ "" ∧ ∀ c ∈ s.toList, c.isDigit = true) := by
  rw [isDigitsOnly, Bool.and_eq_true, decide_eq_true_eq, one_le_toList_length_iff,
    List.all_eq_true]

/-- **C9.** `deviceValidationSchema` accepts a payload exactly when all six
fields are non-empty, `deviceId` consists solely of digits (the regex
`[0-9]+`), and `ipAddress` is four dot-separated groups of 1–3 digits
each — a pure shape check with no 0–255 range check, so
`"999.999.999.999"` matches; on failure the result is the single message
joining the violated rules' messages. -/
theorem deviceValidation_characterization :
    (∀ p : InsertDevice,
       (deviceValidationSafeParse p).isOk = true ↔
         (p.deviceType ≠ "" ∧ p.deviceId ≠ "" ∧
          (∀ c ∈ p.deviceId.toList, c.isDigit = true) ∧
          p.currentOTA ≠ "" ∧ p.ipAddress ≠ "" ∧
          (∃ a b c d : List Char,
            p.ipAddress.toList = a ++ '.' :: (b ++ '.' :: (c ++ '.' :: d)) ∧
            (a ≠ [] ∧ a.length ≤ 3 ∧ ∀ ch ∈ a, ch.isDigit = true) ∧
            (b ≠ [] ∧ b.length ≤ 3 ∧ ∀ ch ∈ b, ch.isDigit = true) ∧
            (c ≠ [] ∧ c.length ≤ 3 ∧ ∀ ch ∈ c, ch.isDigit = true) ∧
            (d ≠ [] ∧ d.length ≤ 3 ∧ ∀ ch ∈ d, ch.isDigit = true)) ∧
          p.sshUser ≠ "" ∧ p.password ≠ "")) ∧
    matchesIpPattern "999.999.999.999" = true ∧
    (∀ p : InsertDevice, deviceValidationIssues p ≠ [] →
       deviceValidationSafeParse p =
         Except.error (String.intercalate "; " (deviceValidationIssues p))) := by
  refine ⟨?_, by decide, ?_⟩
  · intro p
    have hok : (deviceValidationSafeParse p).isOk = true ↔ deviceValidationIssues p = [] := by
      cases h : deviceValidationIssues p with
      | nil => simp [deviceValidationSafeParse, h, Except.isOk, Except.toBool]
      | cons i is => simp [deviceValidationSafeParse, h, Except.isOk, Except.toBool]
    rw [hok, deviceValidationIssues_eq_nil_iff,
      one_le_toList_length_iff, one_le_toList_length_iff, one_le_toList_length_iff,
      one_le_toList_length_iff, one_le_toList_length_iff, one_le_toList_length_iff,
      isDigitsOnly_eq_true_iff, matchesIpPattern_eq_true_iff]
    constructor
    · rintro ⟨h1, h2, h3, h4, h5, h6, h7, h8⟩
      exact ⟨h1, h2, h3.2, h4, h5, h6, h7, h8⟩
    · rintro ⟨h1, h2, h3, h4, h5, h6, h7, h8⟩
      exact ⟨h1, h2, ⟨h2, h3⟩, h4, h5, h6, h7, h8⟩
  · intro p h
    cases hI : deviceValidationIssues p with
    | nil => exact absurd hI h
    | cons i is => simp [deviceValidationSafeParse, hI]

/-- Witness for C9's failure clause at a payload violating several rules. -/
theorem deviceValidation_characterization_witness :
    deviceValidationIssues badSample ≠ [] ∧
    deviceValidationSafeParse badSample =
      Except.error (String.intercalate "; " (deviceValidationIssues badSample)) :=
  ⟨by decide, deviceValidation_characterization.2.2 badSample (by decide)⟩

/-! ### Route-handler theorems (C1, C2, C3, C10) -/

/-- **C2 (code bug).** `registerRoutes` registers no DELETE route at all —
in particular none at `/api/devices/:id` — although the spec's routing
table, the storage layer (`deleteDevice`) and the client
(`EditDeviceForm`) all expect one; Express therefore answers every
DELETE request with its default 404 and no device is ever removed. -/
theorem no_delete_route_registered :
    ((HttpMethod.DELETE, "/api/devices/:id") ∉ registeredRoutes) ∧
    registeredRoutes.all (fun r => decide (r.1 ≠ HttpMethod.DELETE)) = true := by
  decide

/-- **C1 (code bug).** For an authenticated PUT /api/devices/:id whose id
parses and names an existing device (id 1 of the seeded store), the
handler responds 500 — never 200 with the updated device — for every
request body, because its body-validation line references the undefined
`updateDeviceSchema` and the resulting `ReferenceError` is caught by the
handler's try/catch. -/
theorem putDevice_existing_id_returns_500 :
    getDevice mkMemStorage 1 = some seededDevice1 ∧
    ∀ body : RequestBody, putDeviceHandler mkMemStorage (some 1) body = (500, mkMemStorage) := by
  exact ⟨by decide, fun _ => rfl⟩

/-- **C10.** For every authenticated PUT /api/devices/:id whose path id
parses as an integer but matches no stored device, the response is 404
regardless of the request body — the existence check precedes body
validation — and in particular never 400. -/
theorem putDevice_unknown_id_returns_404 (st : MemStorage) (pid : Int) (body : RequestBody)
    (h : getDevice st pid = none) :
    putDeviceHandler st (some pid) body = (404, st) ∧
    (putDeviceHandler st (some pid) body).1 ≠ 400 := by
  simp [putDeviceHandler, h]

/-- Witness for C10: id 99 is unknown in the seeded store and a PUT with an
invalid body still yields 404. -/
theorem putDevice_unknown_id_returns_404_witness :
    getDevice mkMemStorage 99 = none ∧
    (putDeviceHandler mkMemStorage (some 99) [("ipAddress", "abc")] = (404, mkMemStorage) ∧
     (putDeviceHandler mkMemStorage (some 99) [("ipAddress", "abc")]).1 ≠ 400) :=
  ⟨by decide,
   putDevice_unknown_id_returns_404 mkMemStorage 99 [("ipAddress", "abc")] (by decide)⟩

/-- **C3 (counterexample).** The payload `conflictSample` passes validation
and its `(deviceType, deviceId) = ("Krait2", "660")` pair is identical to
no stored pair of the seeded store, yet the POST handler responds 409
(because the duplicate pre-check matches `deviceId` by substring):
the claim "409 exactly when an identical pair exists" is false as stated. -/
theorem postDevices_conflict_counterexample :
    (deviceValidationSafeParse conflictSample).isOk = true ∧
    ((getDevices mkMemStorage).all
       (fun d => !(d.deviceType == conflictSample.deviceType &&
                   d.deviceId == conflictSample.deviceId))) = true ∧
    (postDevicesHandler mkMemStorage conflictSample).1 = 409 ∧
    (postDevicesHandler mkMemStorage conflictSample).2.2 = mkMemStorage := by
  decide

/-- **C3 (amended).** For every store state and every payload passing
device validation, the POST /api/devices handler responds 409 and leaves
the store unchanged exactly when some stored device has the same
`deviceType` and a `deviceId` containing the payload's `deviceId` as a
substring; otherwise it creates the device and responds 201 with the
created record. -/
theorem postDevices_conflict_characterization (st : MemStorage) (p : InsertDevice)
    (h : (deviceValidationSafeParse p).isOk = true) :
    ((∃ d ∈ getDevices st, d.deviceType = p.deviceType ∧
        p.deviceId.toList <:+: d.deviceId.toList) →
      postDevicesHandler st p = (409, none, st)) ∧
    ((¬ ∃ d ∈ getDevices st, d.deviceType = p.deviceType ∧
        p.deviceId.toList <:+: d.deviceId.toList) →
      postDevicesHandler st p = (201, some (createDevice st p).1, (createDevice st p).2)) := by
  have hvnil : deviceValidationIssues p = [] := by
    cases hI : deviceValidationIssues p with
    | nil => rfl
    | cons i is =>
      have he : deviceValidationSafeParse p =
          Except.error (String.intercalate "; " (i :: is)) := by
        simp [deviceValidationSafeParse, hI]
      rw [he] at h
      simp [Except.isOk, Except.toBool] at h
  have hparse : deviceValidationSafeParse p = Except.ok p := by
    simp [deviceValidationSafeParse, hvnil]
  obtain ⟨hdt, hdi, -⟩ := (deviceValidationIssues_eq_nil_iff p).mp hvnil
  have ht : p.deviceType ≠ "" := (one_le_toList_length_iff _).mp hdt
  have hi : p.deviceId ≠ "" := (one_le_toList_length_iff _).mp hdi
  have hsearch : ∀ d : Device,
      d ∈ searchDevices st
        { deviceType := some p.deviceType, deviceId := some p.deviceId, currentOTA := none } ↔
      (d ∈ getDevices st ∧ d.deviceType = p.deviceType ∧
        p.deviceId.toList <:+: d.deviceId.toList) := by
    intro d
    rw [searchDevices, List.mem_filter, matchesCriteria_eq_true_iff]
    rw [getDevices]
    constructor
    · rintro ⟨hmem, hA, hB, -⟩
      rcases hA with hA | hA | hA
      · exact absurd hA (by simp)
      · exact absurd (Option.some.inj hA) ht
      · rcases hB with hB | hB | ⟨s, hs, hsub⟩
        · exact absurd hB (by simp)
        · exact absurd (Option.some.inj hB) hi
        · have hps : p.deviceId = s := Option.some.inj hs
          rw [← hps] at hsub
          exact ⟨hmem, (Option.some.inj hA).symm, hsub⟩
    · rintro ⟨hmem, hA, hB⟩
      exact ⟨hmem, Or.inr (Or.inr (congrArg some hA.symm)),
        Or.inr (Or.inr ⟨p.deviceId, rfl, hB⟩), Or.inl rfl⟩
  have hlen : 0 < (searchDevices st
      { deviceType := some p.deviceType, deviceId := some p.deviceId,
        currentOTA := none }).length ↔
      ∃ d ∈ getDevices st, d.deviceType = p.deviceType ∧
        p.deviceId.toList <:+: d.deviceId.toList := by
    rw [List.length_pos_iff_exists_mem]
    exact exists_congr hsearch
  constructor
  · intro hex
    have hc : 0 < (searchDevices st
        { deviceType := some p.deviceType, deviceId := some p.deviceId,
          currentOTA := none }).length := hlen.mpr hex
    simp [postDevicesHandler, hparse, hc]
  · intro hnex
    have hc : ¬ 0 < (searchDevices st
        { deviceType := some p.deviceType, deviceId := some p.deviceId,
          currentOTA := none }).length := fun hc => hnex (hlen.mp hc)
    simp [postDevicesHandler, hparse, hc]

/-- Witness for C3's amended claim: the substring conflict `conflictSample`
triggers the 409 branch on the seeded store. -/
theorem postDevices_conflict_characterization_witness :
    (deviceValidationSafeParse conflictSample).isOk = true ∧
    (∃ d ∈ getDevices mkMemStorage, d.deviceType = conflictSample.deviceType ∧
       conflictSample.deviceId.toList <:+: d.deviceId.toList) ∧
    postDevicesHandler mkMemStorage conflictSample = (409, none, mkMemStorage) :=
  ⟨by decide, by decide,
   (postDevices_conflict_characterization mkMemStorage conflictSample (by decide)).1
     (by decide)⟩

end DeviceAccessHub
